import Mathlib

/-!
Shallow embedding of the PEX SIP plugin (files `pex.py`,
`port_extender/port_extender.py`, `port_extender/io_devices.py`).

The I2C bus transport is abstracted by a function `probe : Nat → Bool`
(whether a quick-write to a given address ACKs) and, for output cycles, by a
function `fails : Nat → Bool` (whether the bus write performed by the
`device_index`-th RuntimeDeviceHandle raises `OSError`).  Host globals
`gv.sd["nst"]` and `gv.sd["alr"]` are passed as explicit parameters
`nst : Nat` and `alr : Bool`.  Python ints holding 0/1 truth values
(`gv.srvals` entries, the `auto_configure` flag) are kept as `Nat`, with the
source's own comparisons (`== 1`, truthiness `≠ 0`).  The `hw_addr` field is
stored in the source as the hex string `hex(addr)` and always read back with
`int(·, 16)`; since this round-trips, it is modelled as the `Nat` address.
-/

/-- Embeds the dict built by `PEX.create_device` (port_extender.py:70-74). -/
structure Dev where
  bus_id : String
  hw_addr : Nat
  ic_type : String
  size : Nat
  first : Nat
  last : Nat
deriving Repr, DecidableEq

/-- Default used for list lookups in statements (never produced by the code). -/
def dummyDev : Dev := { bus_id := "", hw_addr := 0, ic_type := "", size := 0, first := 0, last := 0 }

/-- Embeds `PEX.create_device` (port_extender.py:70-74). -/
def create_device (bus_id : String) (hw_addr : Nat) (ic_type : String)
    (size first last : Nat) : Dev :=
  { bus_id := bus_id, hw_addr := hw_addr, ic_type := ic_type,
    size := size, first := first, last := last }

/-- Embeds the persisted configuration dict (keys of `create_default_config`,
port_extender.py:76-92). -/
structure PexConfig where
  debug : String
  pex_status : String
  config_status : String
  auto_configure : Nat
  default_smbus : String
  warnmsg : String
  num_SIP_stations : Nat
  SIP_alr : Bool
  num_PEX_stations : Nat
  supported_hardware : List String
  dev_configs : List Dev
  discovered_devices : List Nat
  default_ic_type : String
  ic_type : String
deriving Repr, DecidableEq

/-- Embeds `PEX.create_default_config` (port_extender.py:76-92); `nst`, `alr`
are `gv.sd["nst"]`, `gv.sd["alr"]`, `smbus_default` is `get_smbus_default()`. -/
def create_default_config (nst : Nat) (alr : Bool) (smbus_default : String) : PexConfig :=
  { debug := "0"
    pex_status := "disabled"
    config_status := "unconfigured"
    auto_configure := 0
    default_smbus := smbus_default
    warnmsg := ""
    num_SIP_stations := nst
    SIP_alr := alr
    num_PEX_stations := 0
    supported_hardware := ["pcf8574", "pcf8575", "mcp2308", "mcp23017"]
    dev_configs := []
    discovered_devices := []
    default_ic_type := "mcp23017"
    ic_type := "mcp23017" }

/-- Embeds `i2c_scan` (io_devices.py:229-241): probe every address in
`range(start_addr, end_addr + 1)`; an address is kept iff `write_quick`
raises no `OSError` (`probe a = true`).  The `except OSError: pass` makes the
function total: it never propagates an error for a non-responding address. -/
def i2c_scan (probe : Nat → Bool) (start_addr end_addr : Nat) : List Nat :=
  (List.range' start_addr (end_addr + 1 - start_addr)).filter probe

/-- Embeds `PEX.scan_for_ioextenders` (port_extender.py:228-232): fixed
window `[0x20, 0x27]`. -/
def scan_for_ioextenders (probe : Nat → Bool) : List Nat :=
  i2c_scan probe 0x20 0x27

/-- Embeds `PEX.verify_device_handshake` (port_extender.py:234-239). -/
def verify_device_handshake (probe : Nat → Bool) (bus_addr : Nat) : Bool :=
  (i2c_scan probe bus_addr bus_addr).length != 0

/-- Embeds `PEX.verify_hardware_config` (port_extender.py:215-226): fail on an
empty device list, otherwise `valid` stays `True` iff every configured
address ACKs its handshake. -/
def verify_hardware_config (probe : Nat → Bool) (conf : PexConfig) : Bool :=
  if conf.dev_configs.length = 0 then false
  else conf.dev_configs.all fun d => verify_device_handshake probe d.hw_addr

/-- Embeds `PEX.sanity_check_config` (port_extender.py:192-213): `valid` ends
`True` iff none of the three checks tripped. -/
def sanity_check_config (nst : Nat) (conf : PexConfig) : Bool :=
  (conf.num_SIP_stations == nst)
    && !(conf.num_SIP_stations > conf.num_PEX_stations)
    && ((conf.dev_configs.map (fun d => d.size)).sum == conf.num_PEX_stations)

/-- The `port_span` selection inside `PEX.autogenerate_device_config`
(port_extender.py:167-170). -/
def port_span_of (ic_type : String) : Nat :=
  if ic_type = "pcf8574" ∨ ic_type = "mcp2308" then 8 else 16

/-- Embeds `PEX.autogenerate_device_config` (port_extender.py:160-190).
`math.ceil(srlen / port_span)` over naturals is `(srlen + span - 1) / span`. -/
def autogenerate_device_config (ic_type : String) (smbus_id : String)
    (probe : Nat → Bool) (nst : Nat) : List Dev :=
  let discovered_devices := scan_for_ioextenders probe
  let port_span := port_span_of ic_type
  let num_devs_needed := (nst + port_span - 1) / port_span
  if num_devs_needed > discovered_devices.length then []
  else
    (List.range num_devs_needed).map fun port_id =>
      create_device smbus_id (discovered_devices.getD port_id 0) ic_type
        port_span (port_id * port_span) ((port_id + 1) * port_span)

/-- Embeds the in-memory effect of `PEX.save_config` (port_extender.py:150-158):
re-validate, and since `pex_c` is mutated in place, an invalid configuration
has its `config_status` forced to `"unconfigured"`; `SIP_alr` is refreshed
from the host.  JSON persistence itself is out of scope. -/
def save_config (probe : Nat → Bool) (nst : Nat) (alr : Bool) (c : PexConfig) : PexConfig :=
  let c :=
    if ¬(sanity_check_config nst c && verify_hardware_config probe c) = true then
      { c with config_status := "unconfigured" }
    else c
  { c with SIP_alr := alr }

/-- Reading and JSON-decoding `./data/pex_config.json` can yield a config, an
`IOError`, or a `json.JSONDecodeError` (malformed file). -/
inductive LoadErr where
  | ioError
  | jsonError
deriving Repr, DecidableEq

/-- Embeds `PEX.load_config` (port_extender.py:111-147).  The source's
`except IOError` handles only `ioError`; a `jsonError` raised by `json.load`
is not an `IOError` in Python 3 and propagates.  The handler rebuilds from
`create_default_config` plus auto-generation; the validation branch either
keeps a valid config or (auto-configure truthy) regenerates it, else clears
it; both mutating paths pass through `save_config`, and `SIP_alr` is
refreshed at the end. -/
def load_config (file : Except LoadErr PexConfig) (probe : Nat → Bool)
    (nst : Nat) (alr : Bool) (smbus_default : String) : Except LoadErr PexConfig :=
  match file with
  | Except.error LoadErr.ioError =>
    let c := create_default_config nst alr smbus_default
    let devs := autogenerate_device_config c.default_ic_type c.default_smbus probe nst
    let npex := (devs.map (fun d => d.size)).sum
    let c := { c with dev_configs := devs, num_PEX_stations := npex,
                      config_status := if npex ≥ nst then "configured" else "unconfigured" }
    let c := save_config probe nst alr c
    Except.ok { c with SIP_alr := alr }
  | Except.error e => Except.error e
  | Except.ok pex_config =>
    if (sanity_check_config nst pex_config && verify_hardware_config probe pex_config) = true then
      Except.ok { pex_config with SIP_alr := alr }
    else
      let c :=
        if pex_config.auto_configure ≠ 0 then
          let devs := autogenerate_device_config pex_config.default_ic_type
            pex_config.default_smbus probe nst
          let npex := (devs.map (fun d => d.size)).sum
          { pex_config with dev_configs := devs, num_SIP_stations := nst,
                            num_PEX_stations := npex,
                            config_status := if npex ≥ nst then "configured" else "unconfigured" }
        else
          { pex_config with config_status := "unconfigured", num_SIP_stations := nst,
                            num_PEX_stations := 0, dev_configs := [] }
      let c := save_config probe nst alr c
      Except.ok { c with SIP_alr := alr }

/-- The chip families dispatched by the `IO_Device` factory (io_devices.py). -/
inductive DriverKind where
  | mcp23017
  | mcp2308
  | pcf8575
  | pcf8574
deriving Repr, DecidableEq

/-- A RuntimeDeviceHandle: a driver instance bound to bus, address and
polarity (the common state set by `IO_Extender.__init__`,
io_devices.py:39-55). -/
structure IO_Extender where
  kind : DriverKind
  bus_id : String
  dev_addr : Nat
  alr : Bool
deriving Repr, DecidableEq

/-- Embeds the factory `IO_Device` (io_devices.py:210-222): an unsupported
`ic_type` falls through every branch, logs an error and returns `None`. -/
def IO_Device (bus_id : String) (ic_type : String) (dev_addr : Nat)
    (alr : Bool) : Option IO_Extender :=
  if ic_type = "mcp23017" then some { kind := DriverKind.mcp23017, bus_id := bus_id, dev_addr := dev_addr, alr := alr }
  else if ic_type = "mcp2308" then some { kind := DriverKind.mcp2308, bus_id := bus_id, dev_addr := dev_addr, alr := alr }
  else if ic_type = "pcf8575" then some { kind := DriverKind.pcf8575, bus_id := bus_id, dev_addr := dev_addr, alr := alr }
  else if ic_type = "pcf8574" then some { kind := DriverKind.pcf8574, bus_id := bus_id, dev_addr := dev_addr, alr := alr }
  else none

/-- Embeds `supported_devices` (io_devices.py:224-225). -/
def supported_devices : List String :=
  ["mcp23017", "mcp2308", "pcf8575", "pcf8574"]

/-- Embeds the inner accumulation loop of `PEX.set_output`
(port_extender.py:280-286): starting at station index `st` for `k` iterations
(`k = stp - st`), `result` collects bit `i - st` iff `gv.srvals[i] == 1`
(`n` doubles each step, so bit 0 is the lowest station index of the slice). -/
def slice_bits (srvals : List Nat) : Nat → Nat → Nat
  | _, 0 => 0
  | st, k + 1 => (if srvals.getD st 0 == 1 then 1 else 0) + 2 * slice_bits srvals (st + 1) k

/-- Embeds the device loop of `PEX.set_output` (port_extender.py:275-293),
tracking the `set_output` transport calls it performs.  Returns the list of
`(device_index, value)` pairs for which `self.ports[device_index].set_output`
was invoked, and whether an `OSError` raised by the `fails`-th handle's bus
write escaped the loop (the loop body has no `try`, so the first failing
write aborts the remaining devices and propagates). -/
def set_output_calls (fails : Nat → Bool) (sr_len : Nat) (srvals : List Nat) :
    Nat → Nat → List Dev → List (Nat × Nat) × Bool
  | _, _, [] => ([], false)
  | st, device_index, dev :: rest =>
    let stp := min (st + dev.size) sr_len
    let result := slice_bits srvals st (stp - st)
    if fails device_index then ([(device_index, result)], true)
    else
      let r := set_output_calls fails sr_len srvals (st + dev.size) (device_index + 1) rest
      ((device_index, result) :: r.1, r.2)

/-- Embeds `PEX.set_output` (port_extender.py:249-298) including its
`pex_status` guard: when the plugin is not `"enabled"` it returns after
printing, performing no device writes. -/
def set_output (pex_status : String) (fails : Nat → Bool) (sr_len : Nat)
    (srvals : List Nat) (devs : List Dev) : List (Nat × Nat) × Bool :=
  if pex_status ≠ "enabled" then ([], false)
  else set_output_calls fails sr_len srvals 0 0 devs

/-- Result of one `on_zone_change` invocation: the transport calls made, whether
an exception reached the signal dispatcher, and the `pex.pex_msg` warning set. -/
structure ZoneChangeResult where
  calls : List (Nat × Nat)
  raised : Bool
  pex_msg : String
deriving Repr, DecidableEq

/-- Embeds `on_zone_change` (pex.py:99-134): guard on `pex_status`, guard on
`config_status`, then `pex.set_output()` inside `try/except Exception`, so an
escaping transport error is swallowed there and recorded as a message. -/
def on_zone_change (pex_status config_status : String) (fails : Nat → Bool)
    (sr_len : Nat) (srvals : List Nat) (devs : List Dev) : ZoneChangeResult :=
  if pex_status ≠ "enabled" then
    { calls := [], raised := false,
      pex_msg := "ERROR: Failure to set outputs because PEX is DISABLED!." }
  else if config_status ≠ "configured" then
    { calls := [], raised := false,
      pex_msg := "ERROR: Failure to set outputs. PEX needs to be configured." }
  else
    let r := set_output pex_status fails sr_len srvals devs
    { calls := r.1, raised := false,
      pex_msg := if r.2 then "ERROR: Failure to set outputs. PEX needs to be configured." else "" }

/-- Decides that the devices' configured slices tile `[st, n)` in list order:
each device's `first`/`last` agree with the running offset and its `size`,
and the final offset is exactly `n` (the station vector length). -/
def contiguousFrom (n : Nat) : Nat → List Dev → Bool
  | st, [] => st == n
  | st, d :: rest => (d.first == st) && (d.last == st + d.size) && contiguousFrom n (st + d.size) rest

/-- Tiling of `[st, n)` forces `st ≤ n`. -/
theorem pex_contiguous_le (n : Nat) :
    ∀ (devs : List Dev) (st : Nat), contiguousFrom n st devs = true → st ≤ n := by
  intro devs
  induction devs with
  | nil =>
    intro st h
    simp only [contiguousFrom, Nat.beq_eq_true_eq] at h
    omega
  | cons d rest ih =>
    intro st h
    simp only [contiguousFrom, Bool.and_eq_true] at h
    have := ih (st + d.size) h.2
    omega

/-- Bit `j` of the accumulated slice value is the `st + j`-th station value. -/
theorem pex_slice_bits_testBit (v : List Nat) :
    ∀ (k st j : Nat), j < k →
      Nat.testBit (slice_bits v st k) j = ((v.getD (st + j) 0) == 1) := by
  intro k
  induction k with
  | zero => intro st j h; omega
  | succ k ih =>
    intro st j hj
    cases j with
    | zero =>
      rw [Nat.add_zero, slice_bits, Nat.testBit_zero]
      rcases h : (v.getD st 0 == 1) with _ | _
      · rw [if_neg (by simp [h]), Nat.zero_add]
        simp only [Nat.add_zero, h]
        simp [Nat.mul_mod_right]
      · rw [if_pos (by simp [h])]
        simp only [Nat.add_zero, h]
        simp [Nat.add_mul_mod_self_left]
    | succ j =>
      rw [slice_bits, Nat.testBit_succ]
      have hdiv : ((if v.getD st 0 == 1 then 1 else 0) + 2 * slice_bits v (st + 1) k) / 2
          = slice_bits v (st + 1) k := by
        rcases h : (v.getD st 0 == 1) with _ | _ <;> (simp [h]; try omega)
      rw [hdiv, ih (st + 1) j (by omega)]
      have : st + (j + 1) = st + 1 + j := by omega
      rw [this]

/-- Element description of the no-failure output loop: when the configured
slices tile `[st, v.length)`, the `i`-th transport call carries a value whose
bit `j` is station `first_i + j`. -/
theorem pex_set_output_nofail_bit (v : List Nat) :
    ∀ (devs : List Dev) (st idx i j : Nat),
      contiguousFrom v.length st devs = true →
      i < devs.length →
      j < (devs.getD i dummyDev).size →
      Nat.testBit (((set_output_calls (fun _ => false) v.length v st idx devs).1.getD i (0, 0)).2) j
        = ((v.getD ((devs.getD i dummyDev).first + j) 0) == 1) := by
  intro devs
  induction devs with
  | nil => intro st idx i j hcov hi hj; simp at hi
  | cons d rest ih =>
    intro st idx i j hcov hi hj
    simp only [contiguousFrom, Bool.and_eq_true, Nat.beq_eq_true_eq] at hcov
    obtain ⟨⟨hfirst, _hlast⟩, hrest⟩ := hcov
    have hle : st + d.size ≤ v.length := pex_contiguous_le v.length rest (st + d.size) hrest
    cases i with
    | zero =>
      simp only [List.getD_cons_zero] at hj ⊢
      simp only [set_output_calls, Bool.false_eq_true, if_false]
      simp only [List.getD_cons_zero]
      rw [Nat.min_eq_left hle, Nat.add_sub_cancel_left, hfirst]
      exact pex_slice_bits_testBit v d.size st j hj
    | succ i =>
      simp only [List.getD_cons_succ] at hj ⊢
      simp only [set_output_calls, Bool.false_eq_true, if_false]
      simp only [List.getD_cons_succ]
      exact ih (st + d.size) (idx + 1) i j hrest (by simpa using hi) hj

/-- C1: for every station vector and every configured device list whose slices
cover `[0, len(V))` contiguously, `PEX.set_output` (with the plugin enabled and
no transport failure) calls the `i`-th device handle's `set_output` with the
integer whose bit `j` equals `V[first_i + j]` for every `j` below the device's
slice width: bit 0 corresponds to the lowest station index of the slice. -/
theorem C1_set_output_bit_mapping (srvals : List Nat) (devs : List Dev)
    (hcov : contiguousFrom srvals.length 0 devs = true)
    (i j : Nat) (hi : i < devs.length) (hj : j < (devs.getD i dummyDev).size) :
    Nat.testBit (((set_output "enabled" (fun _ => false) srvals.length srvals devs).1.getD i (0, 0)).2) j
      = ((srvals.getD ((devs.getD i dummyDev).first + j) 0) == 1) := by
  rw [set_output, if_neg (by simp)]
  exact pex_set_output_nofail_bit srvals devs 0 0 i j hcov hi hj

/-- C1 witness: the spec scenario `V = [1,0,1,1,0,0,0,0]` on one 8-bit device:
the argument passed to the handle is `0x0D`, e.g. its bit 2 is station 2. -/
theorem C1_set_output_bit_mapping_witness :
    contiguousFrom 8 0 [create_device "1" 0x20 "pcf8574" 8 0 8] = true ∧
    Nat.testBit (((set_output "enabled" (fun _ => false) 8 [1, 0, 1, 1, 0, 0, 0, 0]
        [create_device "1" 0x20 "pcf8574" 8 0 8]).1.getD 0 (0, 0)).2) 2
      = (([1, 0, 1, 1, 0, 0, 0, 0].getD (0 + 2) 0) == 1) :=
  ⟨by decide,
   C1_set_output_bit_mapping [1, 0, 1, 1, 0, 0, 0, 0]
     [create_device "1" 0x20 "pcf8574" 8 0 8] (by decide) 0 2 (by decide) (by decide)⟩

/-- C2 counterexample: two configured devices, the first device's bus write
raises; `PEX.set_output` has no per-device `try`, so the second device is
never attempted (the calls made are exactly `[(0, 255)]`) and the exception
escapes `PEX.set_output` (second component `true`). -/
theorem C2_counterexample_abort :
    (set_output "enabled" (fun i => i == 0) 16
        [1, 1, 1, 1, 1, 1, 1, 1, 1, 1, 1, 1, 1, 1, 1, 1]
        [create_device "1" 0x20 "pcf8574" 8 0 8, create_device "1" 0x21 "pcf8574" 8 8 16]).1.map
        Prod.fst = [0] ∧
    (set_output "enabled" (fun i => i == 0) 16
        [1, 1, 1, 1, 1, 1, 1, 1, 1, 1, 1, 1, 1, 1, 1, 1]
        [create_device "1" 0x20 "pcf8574" 8 0 8, create_device "1" 0x21 "pcf8574" 8 8 16]).2
      = true := by decide

/-- Shift identity used to describe the attempted index prefix. -/
theorem pex_range_map_shift (idx k : Nat) :
    (List.range (k + 2)).map (idx + ·) = idx :: (List.range (k + 1)).map ((idx + 1) + ·) := by
  rw [List.range_succ_eq_map]
  simp only [List.map_cons, List.map_map, Nat.add_zero]
  congr 1
  apply List.map_congr_left
  intro a _
  simp only [Function.comp_apply]
  omega

/-- If the first failing handle is the one at relative position `k`, the loop
attempts exactly the calls up to and including it, then the error escapes. -/
theorem pex_set_output_fail_stop (fails : Nat → Bool) (sr_len : Nat) (v : List Nat) :
    ∀ (devs : List Dev) (st idx k : Nat), k < devs.length →
      (∀ j, j < k → fails (idx + j) = false) → fails (idx + k) = true →
      (set_output_calls fails sr_len v st idx devs).1.map Prod.fst
          = (List.range (k + 1)).map (idx + ·) ∧
      (set_output_calls fails sr_len v st idx devs).2 = true := by
  intro devs
  induction devs with
  | nil => intro st idx k hk _ _; simp at hk
  | cons d rest ih =>
    intro st idx k hk hfirst hfk
    cases k with
    | zero =>
      rw [Nat.add_zero] at hfk
      simp only [set_output_calls, hfk, if_true]
      refine ⟨?_, by trivial⟩
      show [idx] = List.map (fun x => idx + x) (List.range 1)
      simp [List.range_succ]
    | succ k =>
      have h0 : fails idx = false := by
        have := hfirst 0 (by omega)
        simpa using this
      simp only [set_output_calls, h0, Bool.false_eq_true, if_false]
      have ihr := ih (st + d.size) (idx + 1) k (by simpa using hk)
        (fun j hj => by
          have := hfirst (j + 1) (by omega)
          have e : idx + (j + 1) = idx + 1 + j := by omega
          rwa [e] at this)
        (by
          have e : idx + (k + 1) = idx + 1 + k := by omega
          rwa [e] at hfk)
      refine ⟨?_, ihr.2⟩
      simp only [List.map_cons, ihr.1]
      rw [pex_range_map_shift]

/-- C2 (amended): a transport error while writing one device aborts the
cycle.  If the first failing handle is device `k`, exactly devices
`0..k` are attempted (the devices after `k` are not), the exception escapes
`PEX.set_output`, and it is caught by the `try/except` in `on_zone_change`,
so nothing propagates past the plugin's signal-handler boundary. -/
theorem C2_transport_error_aborts_cycle (fails : Nat → Bool) (sr_len : Nat)
    (srvals : List Nat) (devs : List Dev) (k : Nat) (hk : k < devs.length)
    (hfirst : ∀ j, j < k → fails j = false) (hfk : fails k = true) :
    (set_output "enabled" fails sr_len srvals devs).1.map Prod.fst = List.range (k + 1) ∧
    (set_output "enabled" fails sr_len srvals devs).2 = true ∧
    (on_zone_change "enabled" "configured" fails sr_len srvals devs).raised = false := by
  have hbase := pex_set_output_fail_stop fails sr_len srvals devs 0 0 k hk
    (fun j hj => by simpa using hfirst j hj) (by simpa using hfk)
  have hso : set_output "enabled" fails sr_len srvals devs
      = set_output_calls fails sr_len srvals 0 0 devs := by
    rw [set_output, if_neg (by simp)]
  refine ⟨?_, ?_, ?_⟩
  · rw [hso, hbase.1]
    simp
  · rw [hso]
    exact hbase.2
  · rw [on_zone_change, if_neg (by simp), if_neg (by simp)]

/-- C2 witness: first device's write fails out of two configured devices. -/
theorem C2_transport_error_aborts_cycle_witness :
    (set_output "enabled" (fun i => i == 0) 16
        [1, 1, 1, 1, 1, 1, 1, 1, 1, 1, 1, 1, 1, 1, 1, 1]
        [create_device "1" 0x20 "pcf8574" 8 0 8, create_device "1" 0x21 "pcf8574" 8 8 16]).1.map
        Prod.fst = List.range 1 ∧
    (set_output "enabled" (fun i => i == 0) 16
        [1, 1, 1, 1, 1, 1, 1, 1, 1, 1, 1, 1, 1, 1, 1, 1]
        [create_device "1" 0x20 "pcf8574" 8 0 8, create_device "1" 0x21 "pcf8574" 8 8 16]).2 = true ∧
    (on_zone_change "enabled" "configured" (fun i => i == 0) 16
        [1, 1, 1, 1, 1, 1, 1, 1, 1, 1, 1, 1, 1, 1, 1, 1]
        [create_device "1" 0x20 "pcf8574" 8 0 8, create_device "1" 0x21 "pcf8574" 8 8 16]).raised
      = false :=
  C2_transport_error_aborts_cycle (fun i => i == 0) 16
    [1, 1, 1, 1, 1, 1, 1, 1, 1, 1, 1, 1, 1, 1, 1, 1]
    [create_device "1" 0x20 "pcf8574" 8 0 8, create_device "1" 0x21 "pcf8574" 8 8 16] 0
    (by decide) (fun j hj => absurd hj (Nat.not_lt_zero j)) (by decide)

/-- C3: when the plugin is not enabled or the configuration status is not
`configured`, the zone-change entry point performs no device writes and
records a warning message. -/
theorem C3_not_ready_no_writes (pex_status config_status : String)
    (fails : Nat → Bool) (sr_len : Nat) (srvals : List Nat) (devs : List Dev)
    (h : ¬(pex_status = "enabled" ∧ config_status = "configured")) :
    (on_zone_change pex_status config_status fails sr_len srvals devs).calls = [] ∧
    (on_zone_change pex_status config_status fails sr_len srvals devs).pex_msg ≠ "" := by
  by_cases h1 : pex_status = "enabled"
  · have h2 : config_status ≠ "configured" := fun hc => h ⟨h1, hc⟩
    rw [on_zone_change, if_neg (fun hn => hn h1), if_pos h2]
    exact ⟨rfl, by decide⟩
  · rw [on_zone_change, if_pos h1]
    exact ⟨rfl, by decide⟩

/-- C3 witness: handshake failure left the configuration `unconfigured`
while the plugin itself is enabled — no hardware writes, warning recorded. -/
theorem C3_not_ready_no_writes_witness :
    (on_zone_change "enabled" "unconfigured" (fun _ => false) 8 [1, 1, 1, 1, 1, 1, 1, 1]
        [create_device "1" 0x20 "pcf8574" 8 0 8]).calls = [] ∧
    (on_zone_change "enabled" "unconfigured" (fun _ => false) 8 [1, 1, 1, 1, 1, 1, 1, 1]
        [create_device "1" 0x20 "pcf8574" 8 0 8]).pex_msg ≠ "" :=
  C3_not_ready_no_writes "enabled" "unconfigured" (fun _ => false) 8 [1, 1, 1, 1, 1, 1, 1, 1]
    [create_device "1" 0x20 "pcf8574" 8 0 8] (by decide)

/-- C4 counterexample: an 8-station vector with a second configured device
whose slice `[8, 16)` lies past the end of the vector.  The claim predicts
the second device is skipped (calls `[0]` only); the code still calls its
handle, with the truncated value 0: the calls are `[(0, 13), (1, 0)]`. -/
theorem C4_counterexample_not_skipped :
    (set_output "enabled" (fun _ => false) 8 [1, 0, 1, 1, 0, 0, 0, 0]
        [create_device "1" 0x20 "pcf8574" 8 0 8, create_device "1" 0x21 "pcf8574" 8 8 16]).1
      = [(0, 13), (1, 0)] ∧
    (set_output "enabled" (fun _ => false) 8 [1, 0, 1, 1, 0, 0, 0, 0]
        [create_device "1" 0x20 "pcf8574" 8 0 8, create_device "1" 0x21 "pcf8574" 8 8 16]).1.map
        Prod.fst ≠ [0] := by decide

/-- C4 (amended): a device whose expected slice extends past the end of the
station vector is not skipped — with no transport failure, every configured
device receives exactly one `set_output` call per cycle, and a device whose
slice lies entirely past the end is written the value 0
(the out-of-range index region only truncates the slice). -/
theorem C4_overrun_device_still_written (sr_len : Nat) (srvals : List Nat) :
    ∀ (devs : List Dev) (st idx : Nat),
      ((set_output_calls (fun _ => false) sr_len srvals st idx devs).1.length = devs.length) ∧
      (sr_len ≤ st →
        (set_output_calls (fun _ => false) sr_len srvals st idx devs).1.map Prod.snd
          = devs.map fun _ => 0) := by
  intro devs
  induction devs with
  | nil => intro st idx; exact ⟨rfl, fun _ => rfl⟩
  | cons d rest ih =>
    intro st idx
    simp only [set_output_calls, Bool.false_eq_true, if_false]
    constructor
    · simp [(ih (st + d.size) (idx + 1)).1]
    · intro hst
      have hstp : min (st + d.size) sr_len - st = 0 := by omega
      simp only [List.map_cons, hstp, slice_bits]
      rw [(ih (st + d.size) (idx + 1)).2 (by omega)]

/-- C4 witness: a single device with slice `[8, 16)` against an 8-long
vector: it is still written, once, with value 0. -/
theorem C4_overrun_device_still_written_witness :
    ((set_output_calls (fun _ => false) 8 [1, 0, 1, 1, 0, 0, 0, 0] 8 1
        [create_device "1" 0x21 "pcf8574" 8 8 16]).1.length = 1) ∧
    ((set_output_calls (fun _ => false) 8 [1, 0, 1, 1, 0, 0, 0, 0] 8 1
        [create_device "1" 0x21 "pcf8574" 8 8 16]).1.map Prod.snd = [0]) :=
  ⟨(C4_overrun_device_still_written 8 [1, 0, 1, 1, 0, 0, 0, 0]
      [create_device "1" 0x21 "pcf8574" 8 8 16] 8 1).1,
   (C4_overrun_device_still_written 8 [1, 0, 1, 1, 0, 0, 0, 0]
      [create_device "1" 0x21 "pcf8574" 8 8 16] 8 1).2 (by decide)⟩

/-- C5 counterexample: the hard-coded default configuration has
`auto_configure = 0` (disabled, not enabled as claimed), and a malformed-JSON
file raises `json.JSONDecodeError`, which the handler `except IOError` does
not catch in Python 3, so that load propagates the error instead of falling
back. -/
theorem C5_counterexample_default_fallback :
    (create_default_config 8 false "1").auto_configure = 0 ∧
    load_config (Except.error LoadErr.jsonError) (fun _ => true) 8 false "1"
      = Except.error LoadErr.jsonError := ⟨rfl, rfl⟩

/-- C5 (amended): on a missing or unreadable file (`IOError`), `load_config`
recovers without failing: it starts from the hard-coded default — empty
device list, auto-configure disabled (0), status `unconfigured` — and then
attempts auto-generation before saving.  Malformed JSON is not handled by
this path and propagates. -/
theorem C5_ioerror_falls_back_to_default (probe : Nat → Bool) (nst : Nat)
    (alr : Bool) (smbus_default : String) :
    (create_default_config nst alr smbus_default).dev_configs = [] ∧
    (create_default_config nst alr smbus_default).auto_configure = 0 ∧
    (create_default_config nst alr smbus_default).config_status = "unconfigured" ∧
    (∃ c, load_config (Except.error LoadErr.ioError) probe nst alr smbus_default
      = Except.ok c) ∧
    load_config (Except.error LoadErr.jsonError) probe nst alr smbus_default
      = Except.error LoadErr.jsonError :=
  ⟨rfl, rfl, rfl, ⟨_, rfl⟩, rfl⟩

/-- C6: if the bus scan discovers fewer addresses than
`devicesNeeded = ceil(nst / portSpan)`, auto-generation returns an empty
device list, never a truncated one, and the reconciliation path of
`load_config` (auto-configure truthy, stored config invalid) ends with
`config_status = "unconfigured"` and no devices. -/
theorem C6_discovery_shortfall (probe : Nat → Bool) (conf : PexConfig)
    (nst : Nat) (alr : Bool) (smbus_default : String)
    (hshort : (scan_for_ioextenders probe).length
        < (nst + port_span_of conf.default_ic_type - 1) / port_span_of conf.default_ic_type)
    (hinvalid : (sanity_check_config nst conf && verify_hardware_config probe conf) = false)
    (hauto : conf.auto_configure ≠ 0) :
    autogenerate_device_config conf.default_ic_type conf.default_smbus probe nst = [] ∧
    ∃ c, load_config (Except.ok conf) probe nst alr smbus_default = Except.ok c ∧
      c.config_status = "unconfigured" ∧ c.dev_configs = [] := by
  have hspan : 0 < port_span_of conf.default_ic_type := by
    unfold port_span_of
    split
    · omega
    · omega
  have hag : autogenerate_device_config conf.default_ic_type conf.default_smbus probe nst
      = [] := by
    simp only [autogenerate_device_config]
    rw [if_pos hshort]
  have hnst : 1 ≤ nst := by
    by_contra hne
    have h0 : nst = 0 := by omega
    subst h0
    have : (0 + port_span_of conf.default_ic_type - 1) / port_span_of conf.default_ic_type
        = 0 := Nat.div_eq_of_lt (by omega)
    omega
  refine ⟨hag, ?_⟩
  simp only [load_config, hinvalid, Bool.false_eq_true, if_false, hag]
  rw [if_pos hauto]
  simp only [hag, List.map_nil, List.sum_nil]
  rw [if_neg (by omega : ¬ 0 ≥ nst)]
  simp only [save_config, verify_hardware_config]
  simp only [List.length_nil]
  rw [if_pos (by simp [verify_hardware_config])]
  exact ⟨_, rfl, rfl, rfl⟩

/-- C6 witness: 4 host stations, default ic `mcp23017` (span 16, one device
needed), no address ACKs, stored config invalid, auto-configure on. -/
theorem C6_discovery_shortfall_witness :
    autogenerate_device_config
        ({ create_default_config 4 false "1" with auto_configure := 1 } : PexConfig).default_ic_type
        ({ create_default_config 4 false "1" with auto_configure := 1 } : PexConfig).default_smbus
        (fun _ => false) 4 = [] ∧
    ∃ c, load_config (Except.ok { create_default_config 4 false "1" with auto_configure := 1 })
        (fun _ => false) 4 false "1" = Except.ok c ∧
      c.config_status = "unconfigured" ∧ c.dev_configs = [] :=
  C6_discovery_shortfall (fun _ => false)
    { create_default_config 4 false "1" with auto_configure := 1 } 4 false "1"
    (by decide) (by decide) (by decide)

/-- C7 counterexample: 20 stations, `pcf8574` (span 8), scan discovering
`[0x20, 0x21, 0x22]`: the generated final device has `last = 24`, not the
claimed 20 (and the generated dicts carry no `unused` field at all). -/
theorem C7_counterexample_last_device :
    ((autogenerate_device_config "pcf8574" "1" (fun a => decide (0x20 ≤ a ∧ a ≤ 0x22)) 20).getD 2
        dummyDev).last = 24 ∧
    ¬((autogenerate_device_config "pcf8574" "1" (fun a => decide (0x20 ≤ a ∧ a ≤ 0x22)) 20).getD 2
        dummyDev).last = 20 := by decide

/-- C7 (amended): that scenario produces exactly three devices with addresses
0x20, 0x21, 0x22 in discovery order and slices `[0,8)`, `[8,16)`, `[16,24)`:
each device is a full port span wide, the final one running past the
20-station count (the 4 surplus ports are only reported at output time;
no `unused` field exists in the generated device dicts). -/
theorem C7_autogen_twenty_stations :
    autogenerate_device_config "pcf8574" "1" (fun a => decide (0x20 ≤ a ∧ a ≤ 0x22)) 20
      = [create_device "1" 0x20 "pcf8574" 8 0 8,
         create_device "1" 0x21 "pcf8574" 8 8 16,
         create_device "1" 0x22 "pcf8574" 8 16 24] := by decide

/-- C8: `i2c_scan` includes an address iff it lies in `[startAddr, endAddr]`
and its quick-probe ACKs (a non-responding address is skipped, never an
error: the function is total), the result is strictly ascending, and the
expander auto-discovery sweep invokes the scan with exactly `[0x20, 0x27]`. -/
theorem C8_scan_contract (probe : Nat → Bool) (s e a : Nat) (hse : s ≤ e) :
    (a ∈ i2c_scan probe s e ↔ s ≤ a ∧ a ≤ e ∧ probe a = true) ∧
    (i2c_scan probe s e).Pairwise (· < ·) ∧
    scan_for_ioextenders probe = i2c_scan probe 0x20 0x27 := by
  refine ⟨?_, ?_, rfl⟩
  · rw [i2c_scan, List.mem_filter, List.mem_range'_1]
    constructor
    · rintro ⟨⟨h1, h2⟩, h3⟩
      exact ⟨h1, by omega, h3⟩
    · rintro ⟨h1, h2, h3⟩
      exact ⟨⟨h1, by omega⟩, h3⟩
  · exact List.Pairwise.filter probe (List.pairwise_lt_range' s (e + 1 - s))

/-- C8 witness: scanning `[0x20, 0x27]` with only 0x21 and 0x23 ACKing. -/
theorem C8_scan_contract_witness :
    (0x23 ∈ i2c_scan (fun a => decide (a = 0x21 ∨ a = 0x23)) 0x20 0x27 ↔
      0x20 ≤ 0x23 ∧ 0x23 ≤ 0x27 ∧ (fun a => decide (a = 0x21 ∨ a = 0x23)) 0x23 = true) ∧
    (i2c_scan (fun a => decide (a = 0x21 ∨ a = 0x23)) 0x20 0x27).Pairwise (· < ·) ∧
    scan_for_ioextenders (fun a => decide (a = 0x21 ∨ a = 0x23))
      = i2c_scan (fun a => decide (a = 0x21 ∨ a = 0x23)) 0x20 0x27 :=
  C8_scan_contract (fun a => decide (a = 0x21 ∨ a = 0x23)) 0x20 0x27 0x23 (by decide)

/-- C9: `verify_hardware_config` accepts exactly the configurations with a
non-empty device list all of whose addresses ACK a probe; consequently a
configuration with zero devices always fails verification, and the save-time
validation marks such a configuration `unconfigured`. -/
theorem C9_verify_hardware_iff (probe : Nat → Bool) (conf : PexConfig)
    (nst : Nat) (alr : Bool) :
    (verify_hardware_config probe conf = true ↔
      conf.dev_configs ≠ [] ∧ ∀ d ∈ conf.dev_configs, probe d.hw_addr = true) ∧
    (conf.dev_configs = [] → (save_config probe nst alr conf).config_status = "unconfigured") := by
  have hshake : ∀ d : Dev, verify_device_handshake probe d.hw_addr = probe d.hw_addr := by
    intro d
    rw [verify_device_handshake, i2c_scan]
    rw [show d.hw_addr + 1 - d.hw_addr = 1 from by omega, List.range'_one]
    rcases h : probe d.hw_addr with _ | _
    · simp [List.filter, h]
    · simp [List.filter, h]
  constructor
  · rw [verify_hardware_config]
    split
    · rename_i hlen
      have : conf.dev_configs = [] := List.length_eq_zero.mp hlen
      simp [this]
    · rename_i hlen
      have hne : conf.dev_configs ≠ [] := by
        intro hnil
        exact hlen (by simp [hnil])
      rw [List.all_eq_true]
      constructor
      · intro hall
        exact ⟨hne, fun d hd => by rw [← hshake d]; exact hall d hd⟩
      · intro ⟨_, hall⟩ d hd
        rw [hshake d]
        exact hall d hd
  · intro hnil
    have hcond : ¬(sanity_check_config nst conf && verify_hardware_config probe conf) = true := by
      rw [verify_hardware_config, if_pos (by simp [hnil])]
      simp
    rw [save_config, if_pos hcond]

/-- C9 witness: one configured device whose address ACKs is accepted; the
empty-device configuration is marked `unconfigured` on save. -/
theorem C9_verify_hardware_iff_witness :
    (verify_hardware_config (fun a => decide (a = 0x20))
        { create_default_config 8 false "1" with
            dev_configs := [create_device "1" 0x20 "pcf8574" 8 0 8] } = true ↔
      ({ create_default_config 8 false "1" with
            dev_configs := [create_device "1" 0x20 "pcf8574" 8 0 8] } : PexConfig).dev_configs ≠ [] ∧
        ∀ d ∈ ({ create_default_config 8 false "1" with
            dev_configs := [create_device "1" 0x20 "pcf8574" 8 0 8] } : PexConfig).dev_configs,
          (fun a => decide (a = 0x20)) d.hw_addr = true) ∧
    (({ create_default_config 8 false "1" with
          dev_configs := [create_device "1" 0x20 "pcf8574" 8 0 8] } : PexConfig).dev_configs = [] →
      (save_config (fun a => decide (a = 0x20)) 8 false
          { create_default_config 8 false "1" with
              dev_configs := [create_device "1" 0x20 "pcf8574" 8 0 8] }).config_status
        = "unconfigured") :=
  C9_verify_hardware_iff (fun a => decide (a = 0x20))
    { create_default_config 8 false "1" with
        dev_configs := [create_device "1" 0x20 "pcf8574" 8 0 8] } 8 false

/-- C10: the device factory returns `none` for every ic type outside the four
supported families, so no runtime handle exists to write to hardware. -/
theorem C10_factory_rejects_unsupported (bus_id ic_type : String) (dev_addr : Nat)
    (alr : Bool) (h : ic_type ∉ supported_devices) :
    IO_Device bus_id ic_type dev_addr alr = none := by
  simp only [supported_devices, List.mem_cons, List.not_mem_nil, or_false, not_or] at h
  obtain ⟨h1, h2, h3, h4⟩ := h
  rw [IO_Device, if_neg h1, if_neg h2, if_neg h3, if_neg h4]

/-- C10 witness: the unsupported ic type `"ds1307"` yields no device. -/
theorem C10_factory_rejects_unsupported_witness :
    IO_Device "1" "ds1307" 0x20 false = none :=
  C10_factory_rejects_unsupported "1" "ds1307" 0x20 false (by decide)
